import Mathlib

/-!
Verification development for `include/swift/Reflection/TypeRef.h`.

The header defines an immutable family of type-reference nodes, a uniquing
(hash-consing) allocator keyed by `TypeRefID` identity keys, tuple label
decoding, opaque-archetype argument-list views, and an exhaustive visitor
dispatcher.  This file gives a shallow embedding of those definitions and
proves the specification claims about them.

Modelling conventions:
* `std::string` is modelled as `List Char` (`CppString`); characters are
  treated as unsigned byte values via `Char.toNat` (the header reads bytes of
  ASCII mangled names).
* Machine words are modelled as `Nat` with explicit `% 2 ^ 32` where the C++
  arithmetic wraps.
* A node reference (a `const TypeRef *`) is modelled as the node's index in
  the allocator's arena (`TRRef := Nat`).  The C++ address of node `r` is
  modelled as the nonzero value `r + 1`, and `nullptr` as `0`, mirroring that
  real node addresses are never null.
-/

set_option autoImplicit false

namespace SwiftReflection

/-- Model of `std::string`: a list of characters (bytes). -/
abbrev CppString := List Char

/-- Byte value of character `i` of a string (`String[i]` in the header);
out-of-range reads never occur in the modelled code. -/
def charAt : CppString → Nat → Nat
  | [], _ => 0
  | c :: _, 0 => c.toNat
  | _ :: s, i + 1 => charAt s i

/-! ## TypeRefID (the identity key) -/

/-- Model of `TypeRefID`: the accumulated sequence of 32-bit words
(`std::vector<uint32_t> Bits`). -/
structure TypeRefID where
  Bits : List Nat
  deriving DecidableEq, Repr

namespace TypeRefID

/-- Model of `TypeRefID::addPointer`: a 64-bit pointer value contributes its
low and high 32-bit words (`Raw[0]` and `Raw[1]`, little-endian). -/
def addPointer (id : TypeRefID) (p : Nat) : TypeRefID :=
  ⟨id.Bits ++ [p % 2 ^ 32, p / 2 ^ 32 % 2 ^ 32]⟩

/-- Model of `TypeRefID::addInteger(uint32_t)`. -/
def addInteger32 (id : TypeRefID) (n : Nat) : TypeRefID :=
  ⟨id.Bits ++ [n % 2 ^ 32]⟩

/-- Model of `TypeRefID::addInteger(uint64_t)`: the low word, then the high
word (`Integer >> 32`). -/
def addInteger64 (id : TypeRefID) (n : Nat) : TypeRefID :=
  ⟨id.Bits ++ [n % 2 ^ 32, n / 2 ^ 32 % 2 ^ 32]⟩

/-- Words contributed by a nonempty string in `TypeRefID::addString`: the
chunk loop packs 4 bytes per word (little-endian, wrapping at 2^32), then the
tail loop pushes each remaining byte as its own word.  Direct index-level
translation of the two loops. -/
def stringWords (s : CppString) : List Nat :=
  (List.range (s.length / 4)).map (fun chunk =>
    (charAt s (4 * chunk) + charAt s (4 * chunk + 1) * 2 ^ 8 +
     charAt s (4 * chunk + 2) * 2 ^ 16 + charAt s (4 * chunk + 3) * 2 ^ 24)
    % 2 ^ 32)
  ++ (List.range (s.length - 4 * (s.length / 4))).map
      (fun j => charAt s (4 * (s.length / 4) + j))

/-- Model of `TypeRefID::addString`: an empty string pushes one zero word,
otherwise the chunked words followed by the tail bytes are pushed. -/
def addString (id : TypeRefID) (s : CppString) : TypeRefID :=
  if s.length = 0 then ⟨id.Bits ++ [0]⟩ else ⟨id.Bits ++ stringWords s⟩

/-- Model of `TypeRefID::Equal` (and `operator==`): exact sequence equality
of the word lists. -/
def Equal (lhs rhs : TypeRefID) : Bool :=
  lhs.Bits == rhs.Bits

end TypeRefID

/-- Specification-side restatement of the string encoding, following the
spec's words: "strings packed 4 bytes per word with a tail remainder".
Compared against the source-level `TypeRefID.stringWords` in claim C6. -/
def packBytesSpec : CppString → List Nat
  | c0 :: c1 :: c2 :: c3 :: rest =>
      ((c0.toNat + c1.toNat * 2 ^ 8 + c2.toNat * 2 ^ 16 + c3.toNat * 2 ^ 24)
        % 2 ^ 32) :: packBytesSpec rest
  | rest => rest.map Char.toNat

/-! ## The kind discriminant

The `TypeRefKind` enumeration is generated from `swift/Reflection/TypeRefs.def`
(not part of this repository's sources); its members are reconstructed from
the variant classes of the header (each class passes its `TypeRefKind::...`
value to the `TypeRef` constructor) together with the spec's variant table.
The reference-storage kinds `Weak`/`Unowned`/`Unmanaged` come from
`swift/AST/ReferenceStorage.def`, reconstructed from the spec's
"weak/unowned/unmanaged" enumeration. -/

inductive TypeRefKind where
  | Builtin
  | Nominal
  | BoundGeneric
  | Tuple
  | Function
  | ProtocolComposition
  | Metatype
  | ExistentialMetatype
  | GenericTypeParameter
  | DependentMember
  | ForeignClass
  | ObjCClass
  | ObjCProtocol
  | Opaque
  | OpaqueArchetype
  | WeakStorage
  | UnownedStorage
  | UnmanagedStorage
  | SILBox
  deriving DecidableEq, Repr

/-- Position of a kind in the closed enumeration (the integer value of the
C++ `enum class TypeRefKind` tag). -/
def TypeRefKind.tag : TypeRefKind → Nat
  | .Builtin => 0
  | .Nominal => 1
  | .BoundGeneric => 2
  | .Tuple => 3
  | .Function => 4
  | .ProtocolComposition => 5
  | .Metatype => 6
  | .ExistentialMetatype => 7
  | .GenericTypeParameter => 8
  | .DependentMember => 9
  | .ForeignClass => 10
  | .ObjCClass => 11
  | .ObjCProtocol => 12
  | .Opaque => 13
  | .OpaqueArchetype => 14
  | .WeakStorage => 15
  | .UnownedStorage => 16
  | .UnmanagedStorage => 17
  | .SILBox => 18

/-- Decoding of a raw kind-tag value, as the `switch` in
`TypeRefVisitor::visit` does: tags in the closed enumeration decode to their
kind; any other raw tag (possible only through internal corruption of the
discriminant) decodes to `none`, which is the
`swift_runtime_unreachable("Unhandled TypeRefKind in switch.")` trap. -/
def decodeKindTag : Nat → Option TypeRefKind
  | 0 => some .Builtin
  | 1 => some .Nominal
  | 2 => some .BoundGeneric
  | 3 => some .Tuple
  | 4 => some .Function
  | 5 => some .ProtocolComposition
  | 6 => some .Metatype
  | 7 => some .ExistentialMetatype
  | 8 => some .GenericTypeParameter
  | 9 => some .DependentMember
  | 10 => some .ForeignClass
  | 11 => some .ObjCClass
  | 12 => some .ObjCProtocol
  | 13 => some .Opaque
  | 14 => some .OpaqueArchetype
  | 15 => some .WeakStorage
  | 16 => some .UnownedStorage
  | 17 => some .UnmanagedStorage
  | 18 => some .SILBox
  | _ => none

/-! ## The node variants -/

/-- A reference to a TypeRef node: its index in the allocator arena. -/
abbrev TRRef := Nat

/-- Model of `remote::FunctionParam<const TypeRef *>`: label, type reference
and parameter flags (the flags' integer value). -/
structure FunctionParam where
  Label : CppString
  Ty : TRRef
  Flags : Nat
  deriving DecidableEq, Repr

/-- One concrete `TypeRef` node.  Each constructor corresponds to one final
variant class of the header and carries exactly its fields; child
references are arena indices (`TRRef`), the optional nominal parent models
the possibly-null `const TypeRef *Parent`.  The `OpaqueArchetype` node
stores the contiguous `AllArgumentsBuf` together with the `ArgumentLists`
views, each view being an (offset, length) pair into the buffer. -/
inductive TRNode where
  | Builtin (MangledName : CppString)
  | Nominal (MangledName : CppString) (Parent : Option TRRef)
  | BoundGeneric (MangledName : CppString) (GenericParams : List TRRef)
      (Parent : Option TRRef)
  | Tuple (Elements : List TRRef) (Labels : CppString)
  | Function (Parameters : List FunctionParam) (Result : TRRef) (Flags : Nat)
  | ProtocolComposition (Protocols : List TRRef) (Superclass : Option TRRef)
      (HasExplicitAnyObject : Bool)
  | Metatype (InstanceType : TRRef) (WasAbstract : Bool)
  | ExistentialMetatype (InstanceType : TRRef)
  | GenericTypeParameter (Depth Index : Nat)
  | DependentMember (Member : CppString) (Base : TRRef) (Protocol : CppString)
  | ForeignClass (Name : CppString)
  | ObjCClass (Name : CppString)
  | ObjCProtocol (Name : CppString)
  | Opaque
  | OpaqueArchetype (ID Description : CppString) (Ordinal : Nat)
      (AllArgumentsBuf : List TRRef) (ArgumentLists : List (Nat × Nat))
  | WeakStorage (Ty : TRRef)
  | UnownedStorage (Ty : TRRef)
  | UnmanagedStorage (Ty : TRRef)
  | SILBox (BoxedType : TRRef)
  deriving DecidableEq, Repr

/-- Model of `TypeRef::getKind`: the discriminant stored by each variant's
constructor. -/
def TRNode.getKind : TRNode → TypeRefKind
  | .Builtin _ => .Builtin
  | .Nominal _ _ => .Nominal
  | .BoundGeneric _ _ _ => .BoundGeneric
  | .Tuple _ _ => .Tuple
  | .Function _ _ _ => .Function
  | .ProtocolComposition _ _ _ => .ProtocolComposition
  | .Metatype _ _ => .Metatype
  | .ExistentialMetatype _ => .ExistentialMetatype
  | .GenericTypeParameter _ _ => .GenericTypeParameter
  | .DependentMember _ _ _ => .DependentMember
  | .ForeignClass _ => .ForeignClass
  | .ObjCClass _ => .ObjCClass
  | .ObjCProtocol _ => .ObjCProtocol
  | .Opaque => .Opaque
  | .OpaqueArchetype _ _ _ _ _ => .OpaqueArchetype
  | .WeakStorage _ => .WeakStorage
  | .UnownedStorage _ => .UnownedStorage
  | .UnmanagedStorage _ => .UnmanagedStorage
  | .SILBox _ => .SILBox

/-- C++ pointer value of an optional node reference: `nullptr` is `0`, the
address of node `r` is modelled as `r + 1` (never null). -/
def ptrVal : Option TRRef → Nat
  | none => 0
  | some r => r + 1

/-! ## Kind-specific identity keys (the `Profile` functions) -/

namespace BuiltinTypeRef

/-- Model of `BuiltinTypeRef::Profile`. -/
def Profile (MangledName : CppString) : TypeRefID :=
  TypeRefID.addString ⟨[]⟩ MangledName

end BuiltinTypeRef

namespace NominalTypeTrait

/-- Model of `NominalTypeTrait::Profile` (used by `NominalTypeRef`): the
parent pointer, then the mangled name. -/
def Profile (MangledName : CppString) (Parent : Option TRRef) : TypeRefID :=
  TypeRefID.addString (TypeRefID.addPointer ⟨[]⟩ (ptrVal Parent)) MangledName

end NominalTypeTrait

namespace TupleTypeRef

/-- Model of `TupleTypeRef::Profile`: one pointer per element, then the label
string. -/
def Profile (Elements : List TRRef) (Labels : CppString) : TypeRefID :=
  TypeRefID.addString
    (Elements.foldl (fun id e => TypeRefID.addPointer id (ptrVal (some e))) ⟨[]⟩)
    Labels

end TupleTypeRef

namespace GenericTypeParameterTypeRef

/-- Model of `GenericTypeParameterTypeRef::Profile`. -/
def Profile (Depth Index : Nat) : TypeRefID :=
  TypeRefID.addInteger32 (TypeRefID.addInteger32 ⟨[]⟩ Depth) Index

end GenericTypeParameterTypeRef

namespace OpaqueArchetypeTypeRef

/-- Model of `OpaqueArchetypeTypeRef::Profile`: the id string and the
ordinal, then for each argument list a zero separator word followed by the
argument pointers.  The `description` parameter is accepted but never used,
exactly as in the header. -/
def Profile (idString description : CppString) (ordinal : Nat)
    (argumentLists : List (List TRRef)) : TypeRefID :=
  let _ := description
  argumentLists.foldl
    (fun id argList =>
      argList.foldl (fun id arg => TypeRefID.addPointer id (ptrVal (some arg)))
        (TypeRefID.addInteger32 id 0))
    (TypeRefID.addInteger32 (TypeRefID.addString ⟨[]⟩ idString) ordinal)

end OpaqueArchetypeTypeRef

/-! ## The uniquing allocator -/

/-- One kind-specific cache entry: the cache key (the variant class it
belongs to, paired with the node's identity key) and the cached node
reference.  Keying by the variant class models the header's one separate
`DenseMap` per variant (`Allocator.TypeRefTy##s`). -/
abbrev CacheEntry := (TypeRefKind × TypeRefID) × TRRef

/-- Model of the uniquing allocator ("Builder"): the arena of nodes it owns
(a reference is an index into `nodes`) and the per-variant find-or-create
caches, flattened into one association list whose keys carry the variant. -/
structure Allocator where
  nodes : List TRNode
  cache : List CacheEntry
  deriving DecidableEq, Repr

/-- Allocator with no nodes. -/
def Allocator.empty : Allocator := ⟨[], []⟩

/-- Lookup in the flattened caches (`Allocator.TypeRefTy##s.find(ID)`):
first entry whose key matches. -/
def cacheFind (c : List CacheEntry) (key : TypeRefKind × TypeRefID) :
    Option TRRef :=
  match c with
  | [] => none
  | (k, v) :: rest => if k = key then some v else cacheFind rest key

/-- Model of the `FIND_OR_CREATE_TYPEREF` macro body: compute the identity
key (done by the caller), look it up in the kind's cache and return the
existing node on a hit; on a miss allocate the node at the end of the arena,
insert the cache entry, and return the fresh reference. -/
def findOrCreate (A : Allocator) (k : TypeRefKind) (id : TypeRefID)
    (node : TRNode) : TRRef × Allocator :=
  match cacheFind A.cache (k, id) with
  | some r => (r, A)
  | none =>
      (A.nodes.length,
       ⟨A.nodes ++ [node], ((k, id), A.nodes.length) :: A.cache⟩)

/-- Well-formedness of an allocator state: cache keys are pairwise distinct,
cached references are pairwise distinct, and every cached reference points
into the arena.  `Allocator.empty` satisfies it and `findOrCreate`
preserves it. -/
def Allocator.WF (A : Allocator) : Prop :=
  (A.cache.map Prod.fst).Nodup ∧ (A.cache.map Prod.snd).Nodup ∧
    ∀ e ∈ A.cache, e.2 < A.nodes.length

instance (A : Allocator) : Decidable A.WF := by
  unfold Allocator.WF; infer_instance

/-- Model of `BuiltinTypeRef::create`. -/
def BuiltinTypeRef.create (A : Allocator) (MangledName : CppString) :
    TRRef × Allocator :=
  findOrCreate A .Builtin (BuiltinTypeRef.Profile MangledName)
    (.Builtin MangledName)

/-- Model of `NominalTypeRef::create`. -/
def NominalTypeRef.create (A : Allocator) (MangledName : CppString)
    (Parent : Option TRRef) : TRRef × Allocator :=
  findOrCreate A .Nominal (NominalTypeTrait.Profile MangledName Parent)
    (.Nominal MangledName Parent)

/-- Model of `TupleTypeRef::create`. -/
def TupleTypeRef.create (A : Allocator) (Elements : List TRRef)
    (Labels : CppString) : TRRef × Allocator :=
  findOrCreate A .Tuple (TupleTypeRef.Profile Elements Labels)
    (.Tuple Elements Labels)

/-- Model of `GenericTypeParameterTypeRef::create`. -/
def GenericTypeParameterTypeRef.create (A : Allocator) (Depth Index : Nat) :
    TRRef × Allocator :=
  findOrCreate A .GenericTypeParameter
    (GenericTypeParameterTypeRef.Profile Depth Index)
    (.GenericTypeParameter Depth Index)

/-! ## The OpaqueArchetype constructor and its argument-list views -/

namespace OpaqueArchetypeTypeRef

/-- Second loop of the `OpaqueArchetypeTypeRef` constructor: walk the
collected per-list lengths, emitting for each an (offset, length) view into
the contiguous buffer and advancing the running data offset. -/
def viewsFrom (offset : Nat) : List Nat → List (Nat × Nat)
  | [] => []
  | l :: ls => (offset, l) :: viewsFrom (offset + l) ls

/-- Model of the `OpaqueArchetypeTypeRef` constructor: the argument lists
are copied back-to-back into one contiguous buffer (`AllArgumentsBuf`), and
`ArgumentLists` holds one view per input list over that buffer. -/
def mkNode (id description : CppString) (ordinal : Nat)
    (argumentLists : List (List TRRef)) : TRNode :=
  .OpaqueArchetype id description ordinal argumentLists.flatten
    (viewsFrom 0 (argumentLists.map List.length))

/-- Model of `OpaqueArchetypeTypeRef::create`. -/
def create (A : Allocator) (id description : CppString) (ordinal : Nat)
    (argumentLists : List (List TRRef)) : TRRef × Allocator :=
  findOrCreate A .OpaqueArchetype (Profile id description ordinal argumentLists)
    (mkNode id description ordinal argumentLists)

end OpaqueArchetypeTypeRef

/-- Model of `OpaqueArchetypeTypeRef::getArgumentLists`, materializing each
stored (offset, length) view of the node's contiguous buffer as the list of
references it spans.  Non-archetype nodes have no argument lists. -/
def TRNode.getArgumentLists : TRNode → List (List TRRef)
  | .OpaqueArchetype _ _ _ buf views =>
      views.map (fun v => ((buf.drop v.1).take v.2))
  | _ => []

/-- Model of `OpaqueArchetypeTypeRef::getDescription` (defined only on
archetype nodes). -/
def TRNode.getDescription : TRNode → Option CppString
  | .OpaqueArchetype _ d _ _ _ => some d
  | _ => none

/-! ## Tuple label decoding -/

namespace TupleTypeRef

/-- Loop of `TupleTypeRef::getLabels`: scan the label string, pushing the
accumulated segment at each space (`find(' ', Start)` hit); when no further
space exists the loop breaks, discarding any unterminated tail. -/
def labelSegmentsAux (acc : CppString) : CppString → List CppString
  | [] => []
  | c :: rest =>
      if c = ' ' then acc :: labelSegmentsAux [] rest
      else labelSegmentsAux (acc ++ [c]) rest

/-- Space-terminated segments of a label string. -/
def labelSegments (s : CppString) : List CppString :=
  labelSegmentsAux [] s

/-- Model of `TupleTypeRef::getLabels`: the space-terminated segments of the
label string, padded with empty labels up to the element count. -/
def getLabels (Elements : List TRRef) (Labels : CppString) : List CppString :=
  let Vec := labelSegments Labels
  Vec ++ List.replicate (Elements.length - Vec.length) []

end TupleTypeRef

/-- Specification-side split of a string at every space: the fields between,
before, and after the separators (always one more field than there are
spaces; the last field is the part after the final space, or the whole
string when it has none).  Used to characterize `labelSegments` in claim
C9. -/
def splitAtSpaces : CppString → List CppString
  | [] => [[]]
  | c :: rest =>
      if c = ' ' then [] :: splitAtSpaces rest
      else
        match splitAtSpaces rest with
        | f :: fs => (c :: f) :: fs
        | [] => [[c]]

/-! ## The visitor dispatcher -/

/-- Model of a `TypeRefVisitor` implementation class: one handler per kind
of the closed enumeration, each taking the payload of the matched variant
(the `cast<Id##TypeRef>(typeRef)` argument). -/
structure TypeRefVisitor (α : Type) where
  visitBuiltinTypeRef : CppString → α
  visitNominalTypeRef : CppString → Option TRRef → α
  visitBoundGenericTypeRef : CppString → List TRRef → Option TRRef → α
  visitTupleTypeRef : List TRRef → CppString → α
  visitFunctionTypeRef : List FunctionParam → TRRef → Nat → α
  visitProtocolCompositionTypeRef : List TRRef → Option TRRef → Bool → α
  visitMetatypeTypeRef : TRRef → Bool → α
  visitExistentialMetatypeTypeRef : TRRef → α
  visitGenericTypeParameterTypeRef : Nat → Nat → α
  visitDependentMemberTypeRef : CppString → TRRef → CppString → α
  visitForeignClassTypeRef : CppString → α
  visitObjCClassTypeRef : CppString → α
  visitObjCProtocolTypeRef : CppString → α
  visitOpaqueTypeRef : α
  visitOpaqueArchetypeTypeRef :
    CppString → CppString → Nat → List TRRef → List (Nat × Nat) → α
  visitWeakStorageTypeRef : TRRef → α
  visitUnownedStorageTypeRef : TRRef → α
  visitUnmanagedStorageTypeRef : TRRef → α
  visitSILBoxTypeRef : TRRef → α

/-- Model of `TypeRefVisitor::visit`: the exhaustive switch over the node's
kind discriminant, dispatching to the matching per-kind handler.  In the
embedding the discriminant of a constructed node is valid by construction,
so the function is total; reachability of the
`swift_runtime_unreachable` trap for corrupted raw tags is captured by
`decodeKindTag` returning `none`. -/
def TypeRefVisitor.visit {α : Type} (V : TypeRefVisitor α) : TRNode → α
  | .Builtin name => V.visitBuiltinTypeRef name
  | .Nominal name parent => V.visitNominalTypeRef name parent
  | .BoundGeneric name params parent =>
      V.visitBoundGenericTypeRef name params parent
  | .Tuple elems labels => V.visitTupleTypeRef elems labels
  | .Function params result flags => V.visitFunctionTypeRef params result flags
  | .ProtocolComposition protos sup anyObj =>
      V.visitProtocolCompositionTypeRef protos sup anyObj
  | .Metatype inst wasAbstract => V.visitMetatypeTypeRef inst wasAbstract
  | .ExistentialMetatype inst => V.visitExistentialMetatypeTypeRef inst
  | .GenericTypeParameter d i => V.visitGenericTypeParameterTypeRef d i
  | .DependentMember m b p => V.visitDependentMemberTypeRef m b p
  | .ForeignClass name => V.visitForeignClassTypeRef name
  | .ObjCClass name => V.visitObjCClassTypeRef name
  | .ObjCProtocol name => V.visitObjCProtocolTypeRef name
  | .Opaque => V.visitOpaqueTypeRef
  | .OpaqueArchetype id d o buf views =>
      V.visitOpaqueArchetypeTypeRef id d o buf views
  | .WeakStorage t => V.visitWeakStorageTypeRef t
  | .UnownedStorage t => V.visitUnownedStorageTypeRef t
  | .UnmanagedStorage t => V.visitUnmanagedStorageTypeRef t
  | .SILBox t => V.visitSILBoxTypeRef t

/-! ## The substitution and unification engine

`TypeRef::subst` and `TypeRef::deriveSubstitutions` are declared in the
header but implemented in `TypeRef.cpp`, which is not among this
repository's sources; the definitions below are modelled from the spec.
Following the spec's own abstraction ("`Orig` and `Subst` must have the same
variant kind and the same non-generic identifying fields (symbolic name,
arity, label string, flags, etc.); children are compared pairwise and
recursively", "all other nodes are rebuilt with substituted children"),
a type tree is either a generic-parameter coordinate or a head (kind plus
identifying non-child fields) over a list of child trees.  Because of the
uniquing guarantee, reference equality coincides with structural equality
for nodes of one allocator, so node identity is modelled as structural
equality of trees. -/

/-- Identifying non-child fields of a node: its kind discriminant, its
strings (symbolic name, label string, ...) and its numeric fields (flags,
ordinal, ...). -/
structure TyHead where
  kind : TypeRefKind
  strs : List CppString
  nums : List Nat
  deriving DecidableEq, Repr

mutual
/-- Modelled from the spec: a TypeRef tree as the unification engine sees
it — a `GenericTypeParameter` coordinate, or any other variant as its
identifying head over its child subtrees. -/
inductive Ty where
  | gtp (depth index : Nat)
  | node (head : TyHead) (children : TyList)
  deriving DecidableEq, Repr

/-- Children of a `Ty` node. -/
inductive TyList where
  | nil
  | cons (t : Ty) (ts : TyList)
  deriving DecidableEq, Repr
end

/-- Number of children. -/
def TyList.length : TyList → Nat
  | .nil => 0
  | .cons _ ts => ts.length + 1

/-- Model of `GenericArgumentMap`: bindings from a (depth, index) coordinate
to a bound tree, looked up by key. -/
abbrev GenericArgumentMap := List ((Nat × Nat) × Ty)

/-- Lookup of a coordinate in a `GenericArgumentMap` (`Subs.find(...)`). -/
def lookupSubs : GenericArgumentMap → Nat × Nat → Option Ty
  | [], _ => none
  | (k, t) :: rest, c => if k = c then some t else lookupSubs rest c

mutual
/-- Modelled from the spec: `TypeRef::subst` — every reachable
generic-parameter node whose coordinate is bound in `Subs` is replaced by
its binding, and every other node is rebuilt with substituted children
(by uniquing, a rebuild with identical children is the identical node). -/
def substTy (Subs : GenericArgumentMap) : Ty → Ty
  | .gtp d i =>
      match lookupSubs Subs (d, i) with
      | some t => t
      | none => .gtp d i
  | .node h cs => .node h (substTyList Subs cs)

/-- Substitution over a list of children. -/
def substTyList (Subs : GenericArgumentMap) : TyList → TyList
  | .nil => .nil
  | .cons t ts => .cons (substTy Subs t) (substTyList Subs ts)
end

mutual
/-- Reachability of a generic-parameter node in a tree. -/
def hasGTP : Ty → Bool
  | .gtp _ _ => true
  | .node _ cs => hasGTPList cs

/-- Reachability of a generic-parameter node under a list of children. -/
def hasGTPList : TyList → Bool
  | .nil => false
  | .cons t ts => hasGTP t || hasGTPList ts
end

mutual
/-- Modelled from the spec: `TypeRef::deriveSubstitutions` — walk the
original and substituted trees in lock-step.  A generic-parameter
coordinate binds to the opposite subtree, failing if it is already bound
to a different node; any other node requires the same head and the same
number of children on both sides, deriving pairwise over the children;
every other shape is a structural mismatch.  On success the returned map
extends the given one with the discovered bindings. -/
def deriveSubstitutions (Subs : GenericArgumentMap) :
    Ty → Ty → Option GenericArgumentMap
  | .gtp d i, s =>
      match lookupSubs Subs (d, i) with
      | some t => if t = s then some Subs else none
      | none => some (((d, i), s) :: Subs)
  | .node h cs, .node h2 cs2 =>
      if h = h2 ∧ cs.length = cs2.length then
        deriveSubstitutionsList Subs cs cs2
      else none
  | .node _ _, .gtp _ _ => none

/-- Lock-step derivation over paired children, threading the accumulated
bindings left to right. -/
def deriveSubstitutionsList (Subs : GenericArgumentMap) :
    TyList → TyList → Option GenericArgumentMap
  | .nil, .nil => some Subs
  | .cons o os, .cons s ss =>
      match deriveSubstitutions Subs o s with
      | some Subs2 => deriveSubstitutionsList Subs2 os ss
      | none => none
  | .nil, .cons _ _ => none
  | .cons _ _, .nil => none
end

/-- Parent-less nominal tree with the given mangled name. -/
def Ty.nominal (name : CppString) : Ty :=
  .node ⟨.Nominal, [name], []⟩ .nil

/-- Tuple tree with the given elements and label string. -/
def Ty.tuple (elems : TyList) (labels : CppString) : Ty :=
  .node ⟨.Tuple, [labels], []⟩ elems


/-! ## Lemmas about the uniquing caches -/

theorem cacheFind_eq_some_mem {c : List CacheEntry}
    {key : TypeRefKind × TypeRefID} {v : TRRef}
    (h : cacheFind c key = some v) : (key, v) ∈ c := by
  induction c with
  | nil => simp [cacheFind] at h
  | cons e rest ih =>
    obtain ⟨k, w⟩ := e
    by_cases hk : k = key
    · subst hk
      simp [cacheFind] at h
      simp [h]
    · rw [cacheFind, if_neg hk] at h
      exact List.mem_cons_of_mem _ (ih h)

theorem cacheFind_cons_self {c : List CacheEntry}
    {key : TypeRefKind × TypeRefID} {v : TRRef} :
    cacheFind ((key, v) :: c) key = some v := by
  simp [cacheFind]

theorem cacheFind_cons_ne {c : List CacheEntry}
    {k key : TypeRefKind × TypeRefID} {v : TRRef} (h : k ≠ key) :
    cacheFind ((k, v) :: c) key = cacheFind c key := by
  simp [cacheFind, h]

/-- Distinct keys of a well-formed cache hold distinct references. -/
theorem cacheFind_inj {A : Allocator} (hWF : A.WF)
    {k1 k2 : TypeRefKind × TypeRefID} {v1 v2 : TRRef}
    (h1 : cacheFind A.cache k1 = some v1)
    (h2 : cacheFind A.cache k2 = some v2)
    (hne : k1 ≠ k2) : v1 ≠ v2 := by
  intro hv
  apply hne
  have e1 := cacheFind_eq_some_mem h1
  have e2 := cacheFind_eq_some_mem h2
  have := List.inj_on_of_nodup_map hWF.2.1 e1 e2 (by simpa using hv)
  simpa using congrArg Prod.fst this

/-- Cached references of a well-formed allocator point into the arena. -/
theorem cacheFind_lt_length {A : Allocator} (hWF : A.WF)
    {k : TypeRefKind × TypeRefID} {v : TRRef}
    (h : cacheFind A.cache k = some v) : v < A.nodes.length :=
  hWF.2.2 _ (cacheFind_eq_some_mem h)

/-- C1 (corrected): for a fixed well-formed allocator and any variant kind,
two consecutive find-or-create calls return the identical node reference
exactly when their identity keys are equal: equal keys give the identical
node, and distinct keys give reference-distinct nodes. -/
theorem C1_uniquing_by_identity_key (A : Allocator) (hWF : A.WF)
    (k : TypeRefKind) (id1 id2 : TypeRefID) (n1 n2 : TRNode) :
    (id1 = id2 →
      (findOrCreate A k id1 n1).1 =
        (findOrCreate (findOrCreate A k id1 n1).2 k id2 n2).1) ∧
    (id1 ≠ id2 →
      (findOrCreate A k id1 n1).1 ≠
        (findOrCreate (findOrCreate A k id1 n1).2 k id2 n2).1) := by
  cases h1 : cacheFind A.cache (k, id1) with
  | some v1 =>
    constructor
    · intro heq
      subst heq
      simp [findOrCreate, h1]
    · intro hne
      simp only [findOrCreate, h1]
      cases h2 : cacheFind A.cache (k, id2) with
      | some v2 =>
        simpa using cacheFind_inj hWF h1 h2 (by simp [hne])
      | none =>
        simp only []
        exact Nat.ne_of_lt (cacheFind_lt_length hWF h1)
  | none =>
    constructor
    · intro heq
      subst heq
      simp [findOrCreate, h1, cacheFind_cons_self]
    · intro hne
      have hkne : ((k, id1) : TypeRefKind × TypeRefID) ≠ (k, id2) := by
        simp [hne]
      simp only [findOrCreate, h1]
      rw [cacheFind_cons_ne hkne]
      cases h2 : cacheFind A.cache (k, id2) with
      | some v2 =>
        simpa using (Nat.ne_of_lt (cacheFind_lt_length hWF h2)).symm
      | none =>
        simp

/-- Witness for C1: on the empty allocator, distinct identity keys yield
distinct node references. -/
theorem C1_uniquing_by_identity_key_witness :
    (findOrCreate Allocator.empty .Builtin ⟨[1]⟩ (.Builtin [ 'a' ])).1 ≠
      (findOrCreate (findOrCreate Allocator.empty .Builtin ⟨[1]⟩
          (.Builtin [ 'a' ])).2 .Builtin ⟨[2]⟩ (.Builtin [ 'b' ])).1 :=
  (C1_uniquing_by_identity_key Allocator.empty (by decide) .Builtin
    ⟨[1]⟩ ⟨[2]⟩ (.Builtin [ 'a' ]) (.Builtin [ 'b' ])).2 (by decide)

/-- Counterexample to C1 as stated: the mangled names `"A"` and
`"A\x00\x00\x00"` differ, yet their identity keys coincide (the 4-byte
chunk packs to the same word as the single byte), so the two `create`
calls return the identical node, not reference-distinct ones. -/
theorem C1_identical_node_despite_different_arguments :
    ([ 'A' ] : CppString) ≠ [ 'A', '\x00', '\x00', '\x00' ] ∧
    (BuiltinTypeRef.create Allocator.empty [ 'A' ]).1 =
      (BuiltinTypeRef.create (BuiltinTypeRef.create Allocator.empty [ 'A' ]).2
        [ 'A', '\x00', '\x00', '\x00' ]).1 := by
  decide


/-! ## Tuple label decoding: theorems -/

theorem splitAtSpaces_ne_nil (s : CppString) : splitAtSpaces s ≠ [] := by
  induction s with
  | nil => simp [splitAtSpaces]
  | cons c rest ih =>
    by_cases hc : c = ' '
    · simp [splitAtSpaces, hc]
    · rw [splitAtSpaces, if_neg hc]
      cases h : splitAtSpaces rest with
      | nil => simp
      | cons f fs => simp

theorem labelSegmentsAux_eq (s : CppString) : ∀ (acc f : CppString)
    (fs : List CppString), splitAtSpaces s = f :: fs →
    TupleTypeRef.labelSegmentsAux acc s = ((acc ++ f) :: fs).dropLast := by
  induction s with
  | nil =>
    intro acc f fs h
    rw [splitAtSpaces] at h
    cases h
    simp [TupleTypeRef.labelSegmentsAux]
  | cons c rest ih =>
    intro acc f fs h
    by_cases hc : c = ' '
    · subst hc
      rw [splitAtSpaces, if_pos rfl] at h
      cases h
      cases hr : splitAtSpaces rest with
      | nil => exact absurd hr (splitAtSpaces_ne_nil rest)
      | cons g gs =>
        rw [TupleTypeRef.labelSegmentsAux, if_pos rfl, ih [] g gs hr]
        simp [List.dropLast_cons₂]
    · rw [splitAtSpaces, if_neg hc] at h
      cases hr : splitAtSpaces rest with
      | nil => exact absurd hr (splitAtSpaces_ne_nil rest)
      | cons g gs =>
        rw [hr] at h
        cases h
        rw [TupleTypeRef.labelSegmentsAux, if_neg hc, ih (acc ++ [c]) g fs hr]
        simp

/-- The loop of `getLabels` returns exactly the space-split fields of the
label string minus the final one (the unterminated tail). -/
theorem labelSegments_eq_dropLast (s : CppString) :
    TupleTypeRef.labelSegments s = (splitAtSpaces s).dropLast := by
  cases h : splitAtSpaces s with
  | nil => exact absurd h (splitAtSpaces_ne_nil s)
  | cons f fs =>
    rw [TupleTypeRef.labelSegments, labelSegmentsAux_eq s [] f fs h]
    simp

/-- C9: `getLabels` returns only the space-terminated segments of the label
string — the field after the last space (the whole string when it has no
space) is never returned — padded with empty labels up to the element
count; the result has `max` of the two lengths, so with more segments than
elements it is longer than the element list. -/
theorem C9_getLabels_segments_and_padding (Elements : List TRRef)
    (Labels : CppString) :
    TupleTypeRef.getLabels Elements Labels =
      (splitAtSpaces Labels).dropLast ++
        List.replicate
          (Elements.length - (splitAtSpaces Labels).dropLast.length) [] ∧
    (TupleTypeRef.getLabels Elements Labels).length =
      max (splitAtSpaces Labels).dropLast.length Elements.length ∧
    (Elements.length < (splitAtSpaces Labels).dropLast.length →
      Elements.length < (TupleTypeRef.getLabels Elements Labels).length) := by
  refine ⟨?_, ?_, ?_⟩
  · rw [TupleTypeRef.getLabels, labelSegments_eq_dropLast]
  · rw [TupleTypeRef.getLabels, labelSegments_eq_dropLast]
    simp [List.length_append, List.length_replicate, List.length_dropLast]
    omega
  · intro h
    rw [List.length_dropLast] at h
    rw [TupleTypeRef.getLabels, labelSegments_eq_dropLast]
    simp [List.length_append, List.length_replicate, List.length_dropLast]
    omega

/-- Witness for C9: three segments against one element — the labels `"x"`,
`"y"`, `"z"` are returned with no padding, and the result is longer than
the element list. -/
theorem C9_getLabels_segments_and_padding_witness :
    TupleTypeRef.getLabels [7] [ 'x', ' ', 'y', ' ', 'z', ' ' ] =
      (splitAtSpaces [ 'x', ' ', 'y', ' ', 'z', ' ' ]).dropLast ++
        List.replicate (([7] : List TRRef).length -
          (splitAtSpaces [ 'x', ' ', 'y', ' ', 'z', ' ' ]).dropLast.length) [] ∧
    ([7] : List TRRef).length <
      (TupleTypeRef.getLabels [7] [ 'x', ' ', 'y', ' ', 'z', ' ' ]).length :=
  ⟨(C9_getLabels_segments_and_padding [7] [ 'x', ' ', 'y', ' ', 'z', ' ' ]).1,
   (C9_getLabels_segments_and_padding [7] [ 'x', ' ', 'y', ' ', 'z', ' ' ]).2.2
     (by decide)⟩

/-- Counterexample to C2 as stated: for a tuple of 3 elements with label
string `"x y"`, `getLabels` returns `["x", "", ""]` — the segment `"y"` is
not space-terminated and is dropped, then the vector is padded — not
`["x", "y", ""]` as the claim states. -/
theorem C2_label_string_without_trailing_space :
    TupleTypeRef.getLabels [0, 1, 2] [ 'x', ' ', 'y' ] =
      [[ 'x' ], [], []] ∧
    TupleTypeRef.getLabels [0, 1, 2] [ 'x', ' ', 'y' ] ≠
      [[ 'x' ], [ 'y' ], []] := by
  decide

/-- C2 (corrected): for a tuple of 3 elements with the space-terminated
label string `"x y "`, `getLabels` returns exactly 3 labels `"x"`, `"y"`,
`""` — one label per element, the missing tail padded with the empty
label. -/
theorem C2_label_round_trip :
    TupleTypeRef.getLabels [0, 1, 2] [ 'x', ' ', 'y', ' ' ] =
      [[ 'x' ], [ 'y' ], []] ∧
    (TupleTypeRef.getLabels [0, 1, 2] [ 'x', ' ', 'y', ' ' ]).length =
      ([0, 1, 2] : List TRRef).length := by
  decide


/-! ## OpaqueArchetype argument-list views: theorems -/

/-- Slicing the contiguous buffer at the views produced by the constructor
loop recovers exactly the input argument lists; `pre` is the already-copied
prefix of the buffer. -/
theorem viewsFrom_slices (ls : List (List TRRef)) : ∀ pre : List TRRef,
    (OpaqueArchetypeTypeRef.viewsFrom pre.length (ls.map List.length)).map
      (fun v => ((pre ++ ls.flatten).drop v.1).take v.2) = ls := by
  induction ls with
  | nil =>
    intro pre
    simp [OpaqueArchetypeTypeRef.viewsFrom]
  | cons l ls ih =>
    intro pre
    rw [List.map_cons, OpaqueArchetypeTypeRef.viewsFrom, List.map_cons]
    have hhead : ((pre ++ (l :: ls).flatten).drop pre.length).take l.length
        = l := by
      rw [List.flatten_cons, List.drop_left, List.take_left]
    have htail : (OpaqueArchetypeTypeRef.viewsFrom (pre.length + l.length)
        (ls.map List.length)).map
        (fun v => ((pre ++ (l :: ls).flatten).drop v.1).take v.2) = ls := by
      have h := ih (pre ++ l)
      rw [List.length_append, List.append_assoc, ← List.flatten_cons] at h
      exact h
    rw [hhead, htail]

/-- C5: an OpaqueArchetype node built from a sequence of argument lists
exposes one per-depth view per input list, the i-th view having the length
of the i-th input list; the views materialize to exactly the input lists,
and their concatenation is the node's contiguous buffer, which equals the
flattened input (the node owns the buffer, so the views never reference the
caller's lists). -/
theorem C5_argument_list_views (id description : CppString) (ordinal : Nat)
    (argumentLists : List (List TRRef)) :
    (OpaqueArchetypeTypeRef.mkNode id description ordinal
        argumentLists).getArgumentLists = argumentLists ∧
    (OpaqueArchetypeTypeRef.mkNode id description ordinal
        argumentLists).getArgumentLists.length = argumentLists.length ∧
    (∀ i : Nat,
      ((OpaqueArchetypeTypeRef.mkNode id description ordinal
          argumentLists).getArgumentLists.getD i []).length =
        (argumentLists.getD i []).length) ∧
    (OpaqueArchetypeTypeRef.mkNode id description ordinal
        argumentLists).getArgumentLists.flatten = argumentLists.flatten := by
  have h : (OpaqueArchetypeTypeRef.mkNode id description ordinal
      argumentLists).getArgumentLists = argumentLists := by
    have hs := viewsFrom_slices argumentLists []
    rw [List.length_nil, List.nil_append] at hs
    exact hs
  exact ⟨h, by rw [h], fun i => by rw [h], by rw [h]⟩


/-! ## Identity-key word encoding: theorems -/

/-- The index-level chunk/tail loops of `addString` compute exactly the
4-bytes-per-word packing with a byte-per-word tail remainder. -/
theorem stringWords_eq_packBytesSpec : ∀ s : CppString,
    TypeRefID.stringWords s = packBytesSpec s
  | [] => rfl
  | [c0] => by
    simp [TypeRefID.stringWords, packBytesSpec, charAt, List.range_succ]
  | [c0, c1] => by
    simp [TypeRefID.stringWords, packBytesSpec, charAt, List.range_succ]
  | [c0, c1, c2] => by
    simp [TypeRefID.stringWords, packBytesSpec, charAt, List.range_succ]
  | c0 :: c1 :: c2 :: c3 :: rest => by
    have ih := stringWords_eq_packBytesSpec rest
    rw [packBytesSpec, ← ih]
    simp only [TypeRefID.stringWords, List.length_cons]
    rw [show rest.length + 1 + 1 + 1 + 1 = rest.length + 4 from rfl]
    rw [Nat.add_div_right _ (by norm_num), List.range_succ_eq_map,
      List.map_cons, List.map_map]
    rw [show rest.length + 4 - 4 * (rest.length / 4 + 1) =
      rest.length - 4 * (rest.length / 4) from by omega]
    have hg : (List.range (rest.length - 4 * (rest.length / 4))).map
        (fun j => charAt (c0 :: c1 :: c2 :: c3 :: rest)
          (4 * (rest.length / 4 + 1) + j)) =
      (List.range (rest.length - 4 * (rest.length / 4))).map
        (fun j => charAt rest (4 * (rest.length / 4) + j)) := by
      refine List.map_congr_left fun j _ => ?_
      rw [show 4 * (rest.length / 4 + 1) + j =
        4 * (rest.length / 4) + j + 4 from by omega]
      rfl
    rw [List.cons_append, hg]
    rfl

/-- C6: the identity key accumulates 32-bit words in argument order — a
64-bit integer contributes its two halves (low word first), an empty string
contributes exactly one zero word, a nonempty string contributes its bytes
packed 4 per word with a tail remainder of one word per leftover byte; and
two identity keys are `Equal` exactly when their word sequences are
elementwise equal. -/
theorem C6_identity_key_word_encoding :
    (∀ (id : TypeRefID) (n : Nat), n < 2 ^ 64 →
      (id.addInteger64 n).Bits = id.Bits ++ [n % 2 ^ 32, n / 2 ^ 32]) ∧
    (∀ id : TypeRefID, (id.addString []).Bits = id.Bits ++ [0]) ∧
    (∀ (id : TypeRefID) (s : CppString), s ≠ [] →
      (id.addString s).Bits = id.Bits ++ packBytesSpec s) ∧
    (∀ lhs rhs : TypeRefID,
      TypeRefID.Equal lhs rhs = true ↔ lhs.Bits = rhs.Bits) := by
  refine ⟨?_, ?_, ?_, ?_⟩
  · intro id n hn
    rw [TypeRefID.addInteger64,
      Nat.mod_eq_of_lt (show n / 2 ^ 32 < 2 ^ 32 by omega)]
  · intro id
    rfl
  · intro id s hs
    rw [TypeRefID.addString,
      if_neg (by simpa [List.length_eq_zero] using hs),
      stringWords_eq_packBytesSpec]
  · intro lhs rhs
    simp [TypeRefID.Equal]

/-- Witness for C6: the 64-bit value `2^32 + 5` splits into low word `5`
and high word `1`; the 5-byte string `"abcde"` packs into one 4-byte word
plus the tail byte; equal word lists are `Equal`. -/
theorem C6_identity_key_word_encoding_witness :
    ((⟨[]⟩ : TypeRefID).addInteger64 (2 ^ 32 + 5)).Bits =
      ([] : List Nat) ++ [(2 ^ 32 + 5) % 2 ^ 32, (2 ^ 32 + 5) / 2 ^ 32] ∧
    ((⟨[]⟩ : TypeRefID).addString [ 'a', 'b', 'c', 'd', 'e' ]).Bits =
      ([] : List Nat) ++ packBytesSpec [ 'a', 'b', 'c', 'd', 'e' ] ∧
    (TypeRefID.Equal ⟨[1, 2]⟩ ⟨[1, 2]⟩ = true ↔ ([1, 2] : List Nat) = [1, 2]) :=
  ⟨C6_identity_key_word_encoding.1 ⟨[]⟩ (2 ^ 32 + 5) (by norm_num),
   C6_identity_key_word_encoding.2.2.1 ⟨[]⟩ [ 'a', 'b', 'c', 'd', 'e' ]
     (by decide),
   C6_identity_key_word_encoding.2.2.2 ⟨[1, 2]⟩ ⟨[1, 2]⟩⟩


/-! ## Kind discriminants, classof predicates and visitor dispatch -/

/-- Model of `BuiltinTypeRef::classof`. -/
def BuiltinTypeRef.classof (TR : TRNode) : Bool :=
  TR.getKind == .Builtin

/-- Model of `NominalTypeRef::classof`. -/
def NominalTypeRef.classof (TR : TRNode) : Bool :=
  TR.getKind == .Nominal

/-- Model of `BoundGenericTypeRef::classof`. -/
def BoundGenericTypeRef.classof (TR : TRNode) : Bool :=
  TR.getKind == .BoundGeneric

/-- Model of `TupleTypeRef::classof`. -/
def TupleTypeRef.classof (TR : TRNode) : Bool :=
  TR.getKind == .Tuple

/-- Model of `FunctionTypeRef::classof`. -/
def FunctionTypeRef.classof (TR : TRNode) : Bool :=
  TR.getKind == .Function

/-- Model of `ProtocolCompositionTypeRef::classof`. -/
def ProtocolCompositionTypeRef.classof (TR : TRNode) : Bool :=
  TR.getKind == .ProtocolComposition

/-- Model of `MetatypeTypeRef::classof`. -/
def MetatypeTypeRef.classof (TR : TRNode) : Bool :=
  TR.getKind == .Metatype

/-- Model of `ExistentialMetatypeTypeRef::classof`. -/
def ExistentialMetatypeTypeRef.classof (TR : TRNode) : Bool :=
  TR.getKind == .ExistentialMetatype

/-- Model of `GenericTypeParameterTypeRef::classof`. -/
def GenericTypeParameterTypeRef.classof (TR : TRNode) : Bool :=
  TR.getKind == .GenericTypeParameter

/-- Model of `DependentMemberTypeRef::classof`. -/
def DependentMemberTypeRef.classof (TR : TRNode) : Bool :=
  TR.getKind == .DependentMember

/-- Model of `ForeignClassTypeRef::classof`. -/
def ForeignClassTypeRef.classof (TR : TRNode) : Bool :=
  TR.getKind == .ForeignClass

/-- Model of `ObjCClassTypeRef::classof`. -/
def ObjCClassTypeRef.classof (TR : TRNode) : Bool :=
  TR.getKind == .ObjCClass

/-- Model of `ObjCProtocolTypeRef::classof`. -/
def ObjCProtocolTypeRef.classof (TR : TRNode) : Bool :=
  TR.getKind == .ObjCProtocol

/-- Model of `OpaqueTypeRef::classof`. -/
def OpaqueTypeRef.classof (TR : TRNode) : Bool :=
  TR.getKind == .Opaque

/-- Model of `OpaqueArchetypeTypeRef::classof`. -/
def OpaqueArchetypeTypeRef.classof (TR : TRNode) : Bool :=
  TR.getKind == .OpaqueArchetype

/-- Model of `WeakStorageTypeRef::classof` (macro-generated). -/
def WeakStorageTypeRef.classof (TR : TRNode) : Bool :=
  TR.getKind == .WeakStorage

/-- Model of `UnownedStorageTypeRef::classof` (macro-generated). -/
def UnownedStorageTypeRef.classof (TR : TRNode) : Bool :=
  TR.getKind == .UnownedStorage

/-- Model of `UnmanagedStorageTypeRef::classof` (macro-generated). -/
def UnmanagedStorageTypeRef.classof (TR : TRNode) : Bool :=
  TR.getKind == .UnmanagedStorage

/-- Model of `SILBoxTypeRef::classof`. -/
def SILBoxTypeRef.classof (TR : TRNode) : Bool :=
  TR.getKind == .SILBox

/-- Model of `ReferenceStorageTypeRef::classof`: the switch over the three
reference-storage kinds. -/
def ReferenceStorageTypeRef.classof (TR : TRNode) : Bool :=
  match TR.getKind with
  | .WeakStorage => true
  | .UnownedStorage => true
  | .UnmanagedStorage => true
  | _ => false

/-- Shape of a node: whether it was constructed by the `Builtin`
constructor. -/
def TRNode.isBuiltinNode : TRNode → Bool
  | .Builtin _ => true
  | _ => false

/-- Shape: constructed by the `Nominal` constructor. -/
def TRNode.isNominalNode : TRNode → Bool
  | .Nominal _ _ => true
  | _ => false

/-- Shape: constructed by the `BoundGeneric` constructor. -/
def TRNode.isBoundGenericNode : TRNode → Bool
  | .BoundGeneric _ _ _ => true
  | _ => false

/-- Shape: constructed by the `Tuple` constructor. -/
def TRNode.isTupleNode : TRNode → Bool
  | .Tuple _ _ => true
  | _ => false

/-- Shape: constructed by the `Function` constructor. -/
def TRNode.isFunctionNode : TRNode → Bool
  | .Function _ _ _ => true
  | _ => false

/-- Shape: constructed by the `ProtocolComposition` constructor. -/
def TRNode.isProtocolCompositionNode : TRNode → Bool
  | .ProtocolComposition _ _ _ => true
  | _ => false

/-- Shape: constructed by the `Metatype` constructor. -/
def TRNode.isMetatypeNode : TRNode → Bool
  | .Metatype _ _ => true
  | _ => false

/-- Shape: constructed by the `ExistentialMetatype` constructor. -/
def TRNode.isExistentialMetatypeNode : TRNode → Bool
  | .ExistentialMetatype _ => true
  | _ => false

/-- Shape: constructed by the `GenericTypeParameter` constructor. -/
def TRNode.isGenericTypeParameterNode : TRNode → Bool
  | .GenericTypeParameter _ _ => true
  | _ => false

/-- Shape: constructed by the `DependentMember` constructor. -/
def TRNode.isDependentMemberNode : TRNode → Bool
  | .DependentMember _ _ _ => true
  | _ => false

/-- Shape: constructed by the `ForeignClass` constructor. -/
def TRNode.isForeignClassNode : TRNode → Bool
  | .ForeignClass _ => true
  | _ => false

/-- Shape: constructed by the `ObjCClass` constructor. -/
def TRNode.isObjCClassNode : TRNode → Bool
  | .ObjCClass _ => true
  | _ => false

/-- Shape: constructed by the `ObjCProtocol` constructor. -/
def TRNode.isObjCProtocolNode : TRNode → Bool
  | .ObjCProtocol _ => true
  | _ => false

/-- Shape: constructed by the `Opaque` constructor. -/
def TRNode.isOpaqueNode : TRNode → Bool
  | .Opaque => true
  | _ => false

/-- Shape: constructed by the `OpaqueArchetype` constructor. -/
def TRNode.isOpaqueArchetypeNode : TRNode → Bool
  | .OpaqueArchetype _ _ _ _ _ => true
  | _ => false

/-- Shape: constructed by the `WeakStorage` constructor. -/
def TRNode.isWeakStorageNode : TRNode → Bool
  | .WeakStorage _ => true
  | _ => false

/-- Shape: constructed by the `UnownedStorage` constructor. -/
def TRNode.isUnownedStorageNode : TRNode → Bool
  | .UnownedStorage _ => true
  | _ => false

/-- Shape: constructed by the `UnmanagedStorage` constructor. -/
def TRNode.isUnmanagedStorageNode : TRNode → Bool
  | .UnmanagedStorage _ => true
  | _ => false

/-- Shape: constructed by the `SILBox` constructor. -/
def TRNode.isSILBoxNode : TRNode → Bool
  | .SILBox _ => true
  | _ => false

/-- Shape: constructed by one of the three reference-storage
constructors. -/
def TRNode.isReferenceStorageNode (t : TRNode) : Bool :=
  t.isWeakStorageNode || t.isUnownedStorageNode || t.isUnmanagedStorageNode

/-- C10: every variant's constructor stores that variant's unique kind
discriminant and `getKind` reports it unchanged (it is a pure function of
the constructed node), so each variant's `classof` — the test
`getKind() == Kind` — agrees exactly with having been constructed by that
variant, for every node. -/
theorem C10_kind_discriminant_classof (t : TRNode) :
    BuiltinTypeRef.classof t = t.isBuiltinNode ∧
    NominalTypeRef.classof t = t.isNominalNode ∧
    BoundGenericTypeRef.classof t = t.isBoundGenericNode ∧
    TupleTypeRef.classof t = t.isTupleNode ∧
    FunctionTypeRef.classof t = t.isFunctionNode ∧
    ProtocolCompositionTypeRef.classof t = t.isProtocolCompositionNode ∧
    MetatypeTypeRef.classof t = t.isMetatypeNode ∧
    ExistentialMetatypeTypeRef.classof t = t.isExistentialMetatypeNode ∧
    GenericTypeParameterTypeRef.classof t = t.isGenericTypeParameterNode ∧
    DependentMemberTypeRef.classof t = t.isDependentMemberNode ∧
    ForeignClassTypeRef.classof t = t.isForeignClassNode ∧
    ObjCClassTypeRef.classof t = t.isObjCClassNode ∧
    ObjCProtocolTypeRef.classof t = t.isObjCProtocolNode ∧
    OpaqueTypeRef.classof t = t.isOpaqueNode ∧
    OpaqueArchetypeTypeRef.classof t = t.isOpaqueArchetypeNode ∧
    WeakStorageTypeRef.classof t = t.isWeakStorageNode ∧
    UnownedStorageTypeRef.classof t = t.isUnownedStorageNode ∧
    UnmanagedStorageTypeRef.classof t = t.isUnmanagedStorageNode ∧
    SILBoxTypeRef.classof t = t.isSILBoxNode ∧
    ReferenceStorageTypeRef.classof t = t.isReferenceStorageNode := by
  cases t <;>
    exact ⟨rfl, rfl, rfl, rfl, rfl, rfl, rfl, rfl, rfl, rfl, rfl, rfl, rfl,
      rfl, rfl, rfl, rfl, rfl, rfl, rfl⟩

/-- C7: for every constructed node the visitor dispatches to exactly the
per-kind handler matching the node's kind; every kind's tag decodes back to
that kind (so the unreachable trap is never hit for a valid tag), and a raw
tag value fails to decode — reaching the trap — exactly when it lies
outside the closed 19-kind enumeration, which only internal corruption of
the discriminant can produce. -/
theorem C7_visitor_dispatch :
    (∀ (α : Type) (V : TypeRefVisitor α),
      (∀ s, V.visit (.Builtin s) = V.visitBuiltinTypeRef s) ∧
      (∀ s p, V.visit (.Nominal s p) = V.visitNominalTypeRef s p) ∧
      (∀ s gp p, V.visit (.BoundGeneric s gp p) =
        V.visitBoundGenericTypeRef s gp p) ∧
      (∀ es ls, V.visit (.Tuple es ls) = V.visitTupleTypeRef es ls) ∧
      (∀ ps r f, V.visit (.Function ps r f) = V.visitFunctionTypeRef ps r f) ∧
      (∀ ps sc ao, V.visit (.ProtocolComposition ps sc ao) =
        V.visitProtocolCompositionTypeRef ps sc ao) ∧
      (∀ i w, V.visit (.Metatype i w) = V.visitMetatypeTypeRef i w) ∧
      (∀ i, V.visit (.ExistentialMetatype i) =
        V.visitExistentialMetatypeTypeRef i) ∧
      (∀ d i, V.visit (.GenericTypeParameter d i) =
        V.visitGenericTypeParameterTypeRef d i) ∧
      (∀ m b p, V.visit (.DependentMember m b p) =
        V.visitDependentMemberTypeRef m b p) ∧
      (∀ n, V.visit (.ForeignClass n) = V.visitForeignClassTypeRef n) ∧
      (∀ n, V.visit (.ObjCClass n) = V.visitObjCClassTypeRef n) ∧
      (∀ n, V.visit (.ObjCProtocol n) = V.visitObjCProtocolTypeRef n) ∧
      (V.visit .Opaque = V.visitOpaqueTypeRef) ∧
      (∀ i d o buf vs, V.visit (.OpaqueArchetype i d o buf vs) =
        V.visitOpaqueArchetypeTypeRef i d o buf vs) ∧
      (∀ t, V.visit (.WeakStorage t) = V.visitWeakStorageTypeRef t) ∧
      (∀ t, V.visit (.UnownedStorage t) = V.visitUnownedStorageTypeRef t) ∧
      (∀ t, V.visit (.UnmanagedStorage t) =
        V.visitUnmanagedStorageTypeRef t) ∧
      (∀ t, V.visit (.SILBox t) = V.visitSILBoxTypeRef t)) ∧
    (∀ k : TypeRefKind, decodeKindTag k.tag = some k) ∧
    (∀ n : Nat, decodeKindTag n = none ↔ 19 ≤ n) := by
  refine ⟨?_, ?_, ?_⟩
  · intro α V
    exact ⟨fun _ => rfl, fun _ _ => rfl, fun _ _ _ => rfl, fun _ _ => rfl,
      fun _ _ _ => rfl, fun _ _ _ => rfl, fun _ _ => rfl, fun _ => rfl,
      fun _ _ => rfl, fun _ _ _ => rfl, fun _ => rfl, fun _ => rfl,
      fun _ => rfl, rfl, fun _ _ _ _ _ => rfl, fun _ => rfl, fun _ => rfl,
      fun _ => rfl, fun _ => rfl⟩
  · intro k
    cases k <;> rfl
  · intro n
    constructor
    · intro h
      by_contra hlt
      have hn : n < 19 := by omega
      interval_cases n <;> simp [decodeKindTag] at h
    · intro h
      obtain ⟨m, rfl⟩ := Nat.exists_eq_add_of_le h
      rw [Nat.add_comm]
      rfl

/-- Witness for C7: the `SILBox` tag decodes back to `SILBox`, and the
out-of-enumeration raw tag `100` reaches the trap. -/
theorem C7_visitor_dispatch_witness :
    decodeKindTag TypeRefKind.SILBox.tag = some TypeRefKind.SILBox ∧
    decodeKindTag 100 = none :=
  ⟨C7_visitor_dispatch.2.1 .SILBox,
   (C7_visitor_dispatch.2.2 100).mpr (by norm_num)⟩


/-! ## Substitution and unification: theorems -/

mutual
theorem substTy_empty_of_no_gtp : ∀ t : Ty, hasGTP t = false →
    substTy [] t = t
  | .gtp _ _, h => by simp [hasGTP] at h
  | .node hd cs, h => by
    rw [substTy, substTyList_empty_of_no_gtp cs (by simpa [hasGTP] using h)]

theorem substTyList_empty_of_no_gtp : ∀ ts : TyList, hasGTPList ts = false →
    substTyList [] ts = ts
  | .nil, _ => rfl
  | .cons t ts, h => by
    have h2 : hasGTP t = false ∧ hasGTPList ts = false := by
      simpa [hasGTPList] using h
    rw [substTyList, substTy_empty_of_no_gtp t h2.1,
      substTyList_empty_of_no_gtp ts h2.2]
end

/-- C4: substituting with the empty generic-argument map is the identity —
reference-identical result, since by uniquing a rebuild from identical
children is the identical node — on every tree containing no reachable
generic-parameter node. -/
theorem C4_subst_empty_map_identity (t : Ty) (h : hasGTP t = false) :
    substTy [] t = t :=
  substTy_empty_of_no_gtp t h

/-- Witness for C4: a concrete generic-parameter-free tuple tree is
returned unchanged by substitution with the empty map. -/
theorem C4_subst_empty_map_identity_witness :
    substTy [] (Ty.tuple (.cons (Ty.nominal [ 'I', 'n', 't' ]) .nil) []) =
      Ty.tuple (.cons (Ty.nominal [ 'I', 'n', 't' ]) .nil) [] :=
  C4_subst_empty_map_identity
    (Ty.tuple (.cons (Ty.nominal [ 'I', 'n', 't' ]) .nil) []) (by decide)

mutual
theorem deriveSubstitutions_preserves :
    ∀ (Subs : GenericArgumentMap) (o s : Ty) (Subs2 : GenericArgumentMap),
    deriveSubstitutions Subs o s = some Subs2 →
    ∀ (c : Nat × Nat) (t : Ty), lookupSubs Subs c = some t →
      lookupSubs Subs2 c = some t
  | Subs, .gtp d i, s, Subs2, h => by
    cases hl : lookupSubs Subs (d, i) with
    | some t0 =>
      by_cases ht : t0 = s
      · simp [deriveSubstitutions, hl, ht] at h
        subst h
        exact fun c t hc => hc
      · simp [deriveSubstitutions, hl, ht] at h
    | none =>
      simp [deriveSubstitutions, hl] at h
      intro c t hc
      subst h
      rw [lookupSubs, if_neg ?_]
      · exact hc
      · intro hceq
        rw [hceq] at hl
        rw [hl] at hc
        exact Option.noConfusion hc
  | Subs, .node hd cs, .node hd2 cs2, Subs2, h => by
    by_cases hh : hd = hd2 ∧ cs.length = cs2.length
    · rw [deriveSubstitutions, if_pos hh] at h
      exact deriveSubstitutionsList_preserves Subs cs cs2 Subs2 h
    · rw [deriveSubstitutions, if_neg hh] at h
      exact Option.noConfusion h
  | Subs, .node hd cs, .gtp d i, Subs2, h => by
    rw [deriveSubstitutions] at h
    exact Option.noConfusion h

theorem deriveSubstitutionsList_preserves :
    ∀ (Subs : GenericArgumentMap) (os ss : TyList)
      (Subs2 : GenericArgumentMap),
    deriveSubstitutionsList Subs os ss = some Subs2 →
    ∀ (c : Nat × Nat) (t : Ty), lookupSubs Subs c = some t →
      lookupSubs Subs2 c = some t
  | Subs, .nil, .nil, Subs2, h => by
    simp [deriveSubstitutionsList] at h
    subst h
    exact fun c t hc => hc
  | Subs, .cons o os, .cons s ss, Subs2, h => by
    cases hd : deriveSubstitutions Subs o s with
    | some SubsMid =>
      rw [deriveSubstitutionsList, hd] at h
      intro c t hc
      exact deriveSubstitutionsList_preserves SubsMid os ss Subs2 h c t
        (deriveSubstitutions_preserves Subs o s SubsMid hd c t hc)
    | none =>
      rw [deriveSubstitutionsList, hd] at h
      exact Option.noConfusion h
  | _, .nil, .cons _ _, _, h => by
    rw [deriveSubstitutionsList] at h
    exact Option.noConfusion h
  | _, .cons _ _, .nil, _, h => by
    rw [deriveSubstitutionsList] at h
    exact Option.noConfusion h
end

/-- C3: `deriveSubstitutions` fails whenever the lock-step walk would bind
an already-bound generic-parameter coordinate to a different node: (1) the
pattern `Tuple([GTP(0,0), GTP(0,0)], "")` against the instance
`Tuple([Nominal("Int"), Nominal("String")], "")` fails; (2) at the binding
step, a coordinate bound to `t` walked against any `s ≠ t` yields failure;
(3) a successful walk never rebinds: every binding present before the walk
is intact afterwards, so no coordinate can ever end up bound to two
distinct nodes. -/
theorem C3_deriveSubstitutions_conflict_fails :
    (deriveSubstitutions []
      (Ty.tuple (.cons (.gtp 0 0) (.cons (.gtp 0 0) .nil)) [])
      (Ty.tuple (.cons (Ty.nominal [ 'I', 'n', 't' ])
        (.cons (Ty.nominal [ 'S', 't', 'r', 'i', 'n', 'g' ]) .nil)) [])
      = none) ∧
    (∀ (Subs : GenericArgumentMap) (d i : Nat) (t s : Ty),
      lookupSubs Subs (d, i) = some t → t ≠ s →
      deriveSubstitutions Subs (.gtp d i) s = none) ∧
    (∀ (Subs : GenericArgumentMap) (o s : Ty) (Subs2 : GenericArgumentMap),
      deriveSubstitutions Subs o s = some Subs2 →
      ∀ (c : Nat × Nat) (t : Ty), lookupSubs Subs c = some t →
        lookupSubs Subs2 c = some t) := by
  refine ⟨by decide, ?_, deriveSubstitutions_preserves⟩
  intro Subs d i t s hl ht
  simp [deriveSubstitutions, hl, ht]

/-- Witness for C3: the coordinate `(0,0)` bound to `Nominal("Int")` walked
against `Nominal("String")` fails. -/
theorem C3_deriveSubstitutions_conflict_fails_witness :
    deriveSubstitutions [((0, 0), Ty.nominal [ 'I', 'n', 't' ])] (.gtp 0 0)
      (Ty.nominal [ 'S', 't', 'r', 'i', 'n', 'g' ]) = none :=
  C3_deriveSubstitutions_conflict_fails.2.1
    [((0, 0), Ty.nominal [ 'I', 'n', 't' ])] 0 0
    (Ty.nominal [ 'I', 'n', 't' ])
    (Ty.nominal [ 'S', 't', 'r', 'i', 'n', 'g' ]) (by decide) (by decide)

/-! ## OpaqueArchetype uniquing ignores the description -/

/-- C8: `OpaqueArchetypeTypeRef::Profile` ignores its `description`
argument, so on a fixed allocator two `create` calls that differ only in
the description return the identical node, and the node stored in the arena
is the one built by the first call — its `getDescription` reports the first
call's description. -/
theorem C8_uniquing_ignores_description (A : Allocator)
    (id d1 d2 : CppString) (ord : Nat) (args : List (List TRRef))
    (hmiss : cacheFind A.cache
      (.OpaqueArchetype, OpaqueArchetypeTypeRef.Profile id d1 ord args)
      = none) :
    (∀ desc1 desc2 : CppString,
      OpaqueArchetypeTypeRef.Profile id desc1 ord args =
        OpaqueArchetypeTypeRef.Profile id desc2 ord args) ∧
    (OpaqueArchetypeTypeRef.create A id d1 ord args).1 =
      (OpaqueArchetypeTypeRef.create
        (OpaqueArchetypeTypeRef.create A id d1 ord args).2
        id d2 ord args).1 ∧
    ((OpaqueArchetypeTypeRef.create
        (OpaqueArchetypeTypeRef.create A id d1 ord args).2
        id d2 ord args).2).nodes[(OpaqueArchetypeTypeRef.create
          A id d1 ord args).1]?
      = some (OpaqueArchetypeTypeRef.mkNode id d1 ord args) ∧
    (OpaqueArchetypeTypeRef.mkNode id d1 ord args).getDescription =
      some d1 := by
  have hP : OpaqueArchetypeTypeRef.Profile id d2 ord args =
      OpaqueArchetypeTypeRef.Profile id d1 ord args := rfl
  refine ⟨fun _ _ => rfl, ?_, ?_, rfl⟩
  · simp only [OpaqueArchetypeTypeRef.create, findOrCreate, hmiss, hP,
      cacheFind_cons_self]
  · simp only [OpaqueArchetypeTypeRef.create, findOrCreate, hmiss, hP,
      cacheFind_cons_self]
    simp

/-- Witness for C8: on the empty allocator, creating the same archetype
with descriptions `"a"` then `"b"` returns the identical reference. -/
theorem C8_uniquing_ignores_description_witness :
    (OpaqueArchetypeTypeRef.create Allocator.empty [ 'i' ] [ 'a' ] 0 []).1 =
      (OpaqueArchetypeTypeRef.create
        (OpaqueArchetypeTypeRef.create Allocator.empty [ 'i' ] [ 'a' ] 0 []).2
        [ 'i' ] [ 'b' ] 0 []).1 :=
  (C8_uniquing_ignores_description Allocator.empty [ 'i' ] [ 'a' ] [ 'b' ]
    0 [] (by decide)).2.1

end SwiftReflection
